import Mathlib

/-!
Verification of the benchmark orchestrator in `bench/src/cmd/bench/bench.go`
(isucon8-qualify). The Go source is shallowly embedded: pure computations
become Lean functions, the stateful loops (the escalation ticker, the
validation sequencer, the top-level `startBenchmark` control flow) become
explicit state-passing functions over the observable inputs of one run.
Machine integers (`int`, `int64`) hold small non-negative counter values
here, so they are modelled as `Nat` (with `Int` for the final score, which
can go negative); Go's truncating integer division on the non-negative
`s304Count` coincides with `Nat` division.
-/

namespace IsuconBench

/-- A registered benchmark function (`type benchFunc struct`).  The `Func`
field of the Go struct is an effectful operation; its observable outcomes
are supplied separately as inputs to the embedded control loops, so only
the name is carried here. -/
structure benchFunc where
  Name : String
deriving DecidableEq

/-- `addCheckFunc`: appends one entry to the check registry. -/
def addCheckFunc (f : benchFunc) (checkFuncs : List benchFunc) : List benchFunc :=
  checkFuncs ++ [f]

/-- `addLoadFunc(weight, f)`: the Go loop `for i := 0; i < weight; i++`
appends `f` to `loadFuncs` once per iteration, i.e. `weight` copies. -/
def addLoadFunc (weight : Nat) (f : benchFunc) (loadFuncs : List benchFunc) : List benchFunc :=
  loadFuncs ++ List.replicate weight f

/-- `addLoadLevelUpFunc(weight, f)`: same replication into the level-up
registry. -/
def addLoadLevelUpFunc (weight : Nat) (f : benchFunc) (funcs : List benchFunc) : List benchFunc :=
  funcs ++ List.replicate weight f

/-- A sequence of `addLoadFunc` registrations applied in order. -/
def registerAll (rs : List (Nat × benchFunc)) (regs : List benchFunc) : List benchFunc :=
  rs.foldl (fun acc p => addLoadFunc p.1 p.2 acc) regs

/-- Final counter snapshots read by `startBenchmark` at run end:
`counter.SumPrefix("GET|/")`, `counter.SumPrefix("GET|/fetch")`,
`counter.SumPrefix("POST|/")`, `counter.SumPrefix("get-message-count")`,
`counter.GetKey("staticfile-304")`, `counter.GetKey("load-level-up")`. -/
structure Counters where
  get : Nat
  fetch : Nat
  post : Nat
  msg : Nat
  s304 : Nat
  loadLevelUp : Nat
deriving DecidableEq

/-- The score computation of `startBenchmark`:
`score := 1*(getCount-fetchCount-s304Count) + 3*postCount + 1*msgCount + s304Count/100`.
All Go operands are `int64`; the counters are non-negative, so the only
division (`s304Count/100`) agrees with `Nat` division, while the outer
sum is carried in `Int` because the subtraction can go negative. -/
def score (c : Counters) : Int :=
  1 * ((c.get : Int) - (c.fetch : Int) - (c.s304 : Int))
    + 3 * (c.post : Int) + 1 * (c.msg : Int) + ((c.s304 / 100 : Nat) : Int)

/-- Claim C2: the final score equals
`1*(getCount - fetchCount - notModifiedCount) + 3*postCount + 1*messageCount + notModifiedCount/100`
with integer division, and at the snapshot `getCount=1000, fetchCount=100,
notModifiedCount=200, postCount=50, messageCount=30` it evaluates to `882`. -/
theorem score_formula :
    (∀ c : Counters,
      score c = ((c.get : Int) - (c.fetch : Int) - (c.s304 : Int))
        + 3 * (c.post : Int) + (c.msg : Int) + ((c.s304 / 100 : Nat) : Int))
    ∧ score ⟨1000, 100, 50, 30, 200, 0⟩ = 882 := by
  constructor
  · intro c
    simp [score]
  · decide

/-- Claim C8: registering with weight `w ≥ 1` appends exactly `w` entries
for that function to the corresponding registry (both the load and the
level-up registry), and any sequence of registrations leaves the registry
with total length equal to the sum of the weights. -/
theorem addLoadFunc_weight (w : Nat) (f : benchFunc) (regs : List benchFunc)
    (rs : List (Nat × benchFunc)) (hw : 1 ≤ w) :
    (addLoadFunc w f regs).count f = regs.count f + w
    ∧ (addLoadFunc w f regs).length = regs.length + w
    ∧ (addLoadLevelUpFunc w f regs).count f = regs.count f + w
    ∧ (registerAll rs regs).length = regs.length + (rs.map Prod.fst).sum := by
  refine ⟨?_, ?_, ?_, ?_⟩
  · simp [addLoadFunc, List.count_append, List.count_replicate_self]
  · simp [addLoadFunc]
  · simp [addLoadLevelUpFunc, List.count_append, List.count_replicate_self]
  · clear hw
    induction rs generalizing regs with
    | nil => simp [registerAll]
    | cons p rest ih =>
        simp only [registerAll, List.foldl_cons] at *
        rw [ih (addLoadFunc p.1 p.2 regs)]
        simp [addLoadFunc]
        omega

/-- Witness for C8 at `w = 2` on concrete registries. -/
theorem addLoadFunc_weight_witness :
    (addLoadFunc 2 (benchFunc.mk "LoadCreateUser") [benchFunc.mk "loadLogin"]).count
        (benchFunc.mk "LoadCreateUser")
      = ([benchFunc.mk "loadLogin"] : List benchFunc).count (benchFunc.mk "LoadCreateUser") + 2
    ∧ (addLoadFunc 2 (benchFunc.mk "LoadCreateUser") [benchFunc.mk "loadLogin"]).length
      = ([benchFunc.mk "loadLogin"] : List benchFunc).length + 2
    ∧ (addLoadLevelUpFunc 2 (benchFunc.mk "LoadCreateUser") [benchFunc.mk "loadLogin"]).count
        (benchFunc.mk "LoadCreateUser")
      = ([benchFunc.mk "loadLogin"] : List benchFunc).count (benchFunc.mk "LoadCreateUser") + 2
    ∧ (registerAll [(1, benchFunc.mk "LoadCreateUser"), (1, benchFunc.mk "loadLogin")]
        [benchFunc.mk "loadTopPage"]).length
      = ([benchFunc.mk "loadTopPage"] : List benchFunc).length
        + ([(1, benchFunc.mk "LoadCreateUser"), (1, benchFunc.mk "loadLogin")].map
            Prod.fst).sum :=
  addLoadFunc_weight 2 (benchFunc.mk "LoadCreateUser") [benchFunc.mk "loadLogin"]
    [(1, benchFunc.mk "LoadCreateUser"), (1, benchFunc.mk "loadLogin")] (by decide)

/-- The five checks registered by `startBenchmark`, in registration order. -/
def registeredChecks : List benchFunc :=
  [benchFunc.mk "CheckStaticFiles", benchFunc.mk "CheckCreateUser",
   benchFunc.mk "CheckLogin", benchFunc.mk "CheckAdminLogin",
   benchFunc.mk "CheckAdminCreateEvent"]

/-- The order in which `validationMain` visits the check registry, given the
slice returned by `rand.Perm(len(checkFuncs))`.  The Go loop is
`for r := range rand.Perm(len(checkFuncs))`: ranging over a slice with a
single loop variable binds the *indices* of that slice, so `r` takes the
values `0, 1, ..., len-1` in order and the permutation's entries are never
read. -/
def validationVisitOrder (perm : List Nat) : List Nat :=
  List.range perm.length

/-- The checks actually invoked in one validation pass (`checkFuncs[r]` for
each visited index `r`). -/
def validationVisited (checkFuncs : List benchFunc) (perm : List Nat) : List benchFunc :=
  (validationVisitOrder perm).map (fun r => checkFuncs.getD r (benchFunc.mk ""))

/-- Claim C1 (code evaluated at the failing draw): `[1,0,2,3,4]` is a legal
output of `rand.Perm 5` and differs from the registration order, yet the
pass still visits the five registered checks exactly in registration order;
indeed the visiting order is `0..n-1` for every draw, so it never follows
the drawn permutation. -/
theorem validation_ignores_permutation :
    ([1, 0, 2, 3, 4] : List Nat).Perm (List.range 5)
    ∧ ([1, 0, 2, 3, 4] : List Nat) ≠ List.range 5
    ∧ validationVisited registeredChecks [1, 0, 2, 3, 4] = registeredChecks
    ∧ ∀ perm : List Nat, validationVisitOrder perm = List.range perm.length := by
  refine ⟨by decide, by decide, by decide, fun perm => rfl⟩

/-- What one iteration of a load worker's loop does. -/
inductive WorkerAction where
  | exited
  | crashed
  | invoked (f : benchFunc)
deriving DecidableEq

/-- One iteration of the worker goroutine spawned by `load`: it first polls
`ctx.Err()`; if the context is alive it evaluates
`loadFuncs[rand.Intn(len(loadFuncs))]`.  `math/rand`'s `Intn(n)` panics for
`n <= 0`, so with an empty registry the selection is reached and crashes
(modelled by `crashed`); otherwise `r` stands for the random draw and the
selected entry is `loadFuncs[r % len]`. -/
def loadWorkerStep (loadFuncs : List benchFunc) (ctxDone : Bool) (r : Nat) : WorkerAction :=
  if ctxDone then WorkerAction.exited
  else if loadFuncs.length = 0 then WorkerAction.crashed
  else WorkerAction.invoked (loadFuncs.getD (r % loadFuncs.length) (benchFunc.mk ""))

/-- `load(ctx, state, n)` spawns its `n` worker goroutines unconditionally:
there is no inspection of the registry and no error path, so pool start
never rejects an empty registry. -/
def loadSpawnCount (loadFuncs : List benchFunc) (n : Nat) : Nat := n

/-- Claim C7 (code evaluated at the failing input): starting the pool over
an empty load registry spawns all ten workers without any rejection, and a
live worker's first iteration reaches the unguarded `rand.Intn(0)`
selection and crashes, instead of the fail-fast rejection the claim
mandates.  On a non-empty registry the same step invokes a registered
function. -/
theorem load_empty_registry_crashes :
    loadSpawnCount [] 10 = 10
    ∧ loadWorkerStep [] false 0 = WorkerAction.crashed
    ∧ loadWorkerStep [benchFunc.mk "LoadCreateUser", benchFunc.mk "loadLogin"] false 0
        = WorkerAction.invoked (benchFunc.mk "LoadCreateUser") := by
  refine ⟨rfl, rfl, by decide⟩

/-- The signal board read on each tick of `benchmarkMain`:
`bench.GetLastCheckerError()` yields `(lastErr, errAt)` and
`bench.GetLastSlowPath()` yields `(slowPath, slowAt)`.  Timestamps are in
milliseconds. -/
structure CheckerBoard where
  lastErr : Option String
  errAt : Nat
  slowPath : String
  slowAt : Nat
deriving DecidableEq

/-- `hasRecentErr := e != nil && time.Since(et) < 5*time.Second`. -/
def hasRecentErr (b : CheckerBoard) (now : Nat) : Bool :=
  b.lastErr.isSome && (now - b.errAt < 5000)

/-- `hasRecentSlowPath := path != "" && time.Since(st) < 5*time.Second`. -/
def hasRecentSlowPath (b : CheckerBoard) (now : Nat) : Bool :=
  (b.slowPath != "") && (now - b.slowAt < 5000)

/-- The log entries appended to `loadLogs` by the ticker: the
"エラーが発生したため負荷レベルを上げられませんでした" entry citing the
error, the "レスポンスが遅いため…" entry citing the path, and the
"負荷レベルが上昇しました" entry.  The timestamp prefix of the Go format
strings is elided; the cited payload is kept. -/
inductive LoadLog where
  | errWithheld (e : String)
  | slowWithheld (path : String)
  | levelIncreased
deriving DecidableEq

/-- The mutable state the escalation ticker touches: the
`counter.IncKey("load-level-up")` counter, the `loadLogs` slice, and the
arguments of the `levelUpLoad(ctx, state, n)` calls it has issued. -/
structure BenchState where
  level : Nat
  logs : List LoadLog
  levelUpCalls : List Nat
deriving DecidableEq

/-- One `beat.C` tick of `benchmarkMain`: if `noLevelup` is set the tick is
skipped (`continue`); otherwise a recent error withholds escalation and
logs the error, else a recent slow path withholds escalation and logs the
path, else the level counter is incremented, the "level increased" entry is
logged and `levelUpLoad(ctx, state, 5)` is triggered. -/
def tickStep (noLevelup : Bool) (b : CheckerBoard) (now : Nat) (s : BenchState) : BenchState :=
  if noLevelup then s
  else if hasRecentErr b now then
    { s with logs := s.logs ++ [LoadLog.errWithheld (b.lastErr.getD "")] }
  else if hasRecentSlowPath b now then
    { s with logs := s.logs ++ [LoadLog.slowWithheld b.slowPath] }
  else
    { level := s.level + 1,
      logs := s.logs ++ [LoadLog.levelIncreased],
      levelUpCalls := s.levelUpCalls ++ [5] }

/-- A whole sequence of ticks, each with its own flag, board snapshot and
clock reading. -/
def runTicks : List (Bool × CheckerBoard × Nat) → BenchState → BenchState
  | [], s => s
  | t :: rest, s => runTicks rest (tickStep t.1 t.2.1 t.2.2 s)

lemma tickStep_level_le (nl : Bool) (b : CheckerBoard) (now : Nat) (s : BenchState) :
    s.level ≤ (tickStep nl b now s).level := by
  unfold tickStep
  split
  · exact Nat.le_refl _
  · split
    · exact Nat.le_refl _
    · split
      · exact Nat.le_refl _
      · exact Nat.le_succ _

lemma runTicks_level_le (ticks : List (Bool × CheckerBoard × Nat)) (s : BenchState) :
    s.level ≤ (runTicks ticks s).level := by
  induction ticks generalizing s with
  | nil => exact Nat.le_refl _
  | cons t rest ih =>
      exact Nat.le_trans (tickStep_level_le t.1 t.2.1 t.2.2 s) (ih _)

/-- Claim C3 as amended: the escalation level never decreases across any
sequence of ticks; and when level-up is not administratively disabled
(`noLevelup` unset), a tick increments the level — appending the
level-increased log entry and triggering `levelUpLoad _ _ 5` — exactly when
there is neither an error nor a slow-path signal within the last 5 seconds,
a recent error taking priority in the withhold diagnostics. -/
theorem tickStep_spec (b : CheckerBoard) (now : Nat) (s : BenchState) :
    (∀ nl : Bool, s.level ≤ (tickStep nl b now s).level)
    ∧ (∀ (ticks : List (Bool × CheckerBoard × Nat)) (s0 : BenchState),
        s0.level ≤ (runTicks ticks s0).level)
    ∧ (hasRecentErr b now = false → hasRecentSlowPath b now = false →
        tickStep false b now s
          = ⟨s.level + 1, s.logs ++ [LoadLog.levelIncreased], s.levelUpCalls ++ [5]⟩)
    ∧ ((tickStep false b now s).level = s.level + 1
        ↔ (hasRecentErr b now = false ∧ hasRecentSlowPath b now = false))
    ∧ (hasRecentErr b now = true →
        tickStep false b now s
          = ⟨s.level, s.logs ++ [LoadLog.errWithheld (b.lastErr.getD "")], s.levelUpCalls⟩) := by
  refine ⟨fun nl => tickStep_level_le nl b now s, runTicks_level_le, ?_, ?_, ?_⟩
  · intro h1 h2
    simp [tickStep, h1, h2]
  · cases herr : hasRecentErr b now <;> cases hslow : hasRecentSlowPath b now <;>
      simp [tickStep, herr, hslow]
  · intro h
    simp [tickStep, h]

/-- Witness for C3's amended theorem: on a clean board at time 0 with the
flag unset, the tick raises the level from 2 to 3, logs the level increase
and issues `levelUpLoad _ _ 5`. -/
theorem tickStep_spec_witness :
    tickStep false ⟨none, 0, "", 0⟩ 0 ⟨2, [], []⟩
      = ⟨3, [LoadLog.levelIncreased], [5]⟩ :=
  (tickStep_spec ⟨none, 0, "", 0⟩ 0 ⟨2, [], []⟩).2.2.1 (by decide) (by decide)

/-- Counterexample to claim C3 as stated: with the `nolevelup`
administrative flag set, a tick on a board with no error and no slow-path
signal still does not increment the level, refuting the unconditional
"incremented if and only if no recent signal". -/
theorem tickStep_noLevelup_cex :
    hasRecentErr ⟨none, 0, "", 0⟩ 6000 = false
    ∧ hasRecentSlowPath ⟨none, 0, "", 0⟩ 6000 = false
    ∧ (tickStep true ⟨none, 0, "", 0⟩ 6000 ⟨0, [], []⟩).level = 0 := by
  refine ⟨by decide, by decide, rfl⟩

/-- A Go `error` value as classified by `validationMain`: only a
`*bench.CheckerError` carries the fatal flag (`cerr.IsFatal()`); any other
error is never fatal. -/
inductive GoErr where
  | checker (fatal : Bool) (msg : String)
  | plain (msg : String)
deriving DecidableEq

/-- The string `fmt.Sprint` produces for the error (its `Error()` text). -/
def errMsg : GoErr → String
  | GoErr.checker _ m => m
  | GoErr.plain m => m

/-- `isFatalError` as computed in `validationMain`: the type assertion
`err.(*bench.CheckerError)` succeeds only for checker errors, and then
`IsFatal()` is consulted; `nil` and plain errors are non-fatal. -/
def isFatalError : Option GoErr → Bool
  | some (GoErr.checker f _) => f
  | _ => false

/-- What one loop iteration of `validationMain` observes: either
`ctx.Err() != nil` at the top of the iteration, or the check was invoked
and returned `res`. -/
inductive CheckStep where
  | cancelled
  | ran (res : Option GoErr)
deriving DecidableEq

/-- A step that `validationMain` absorbs and moves past: an invocation
whose result is not a fatal checker error. -/
def absorbedStep : CheckStep → Bool
  | CheckStep.cancelled => false
  | CheckStep.ran r => !(isFatalError r)

/-- One pass of `validationMain`, returning the total
`time.Sleep(500 * time.Millisecond)` penalty in milliseconds and the
returned error.  Cancellation observed at the top of an iteration returns
`nil`; a fatal checker error is returned at once; any other error adds a
500 ms sleep and the pass continues; a `nil` result just continues. -/
def validationMain : List CheckStep → Nat × Option GoErr
  | [] => (0, none)
  | CheckStep.cancelled :: _ => (0, none)
  | CheckStep.ran res :: rest =>
      if isFatalError res = true then (0, res)
      else
        match res with
        | some _ => ((validationMain rest).1 + 500, (validationMain rest).2)
        | none => validationMain rest

lemma validationMain_append_fatal (pre post : List CheckStep) (m : String)
    (hpre : pre.all absorbedStep = true) :
    (validationMain (pre ++ CheckStep.ran (some (GoErr.checker true m)) :: post)).2
      = some (GoErr.checker true m) := by
  induction pre with
  | nil => simp [validationMain, isFatalError]
  | cons s rest ih =>
      simp only [List.all_cons, Bool.and_eq_true] at hpre
      obtain ⟨hs, hrest⟩ := hpre
      cases s with
      | cancelled => simp [absorbedStep] at hs
      | ran r =>
          have hfat : isFatalError r = false := by
            simpa [absorbedStep] using hs
          cases r with
          | none => simpa [validationMain, hfat] using ih hrest
          | some e => simpa [validationMain, hfat] using ih hrest

lemma validationMain_fatal_of_some (steps : List CheckStep) (e : GoErr)
    (h : (validationMain steps).2 = some e) : isFatalError (some e) = true := by
  induction steps with
  | nil => simp [validationMain] at h
  | cons s rest ih =>
      cases s with
      | cancelled => simp [validationMain] at h
      | ran r =>
          by_cases hf : isFatalError r = true
          · simp [validationMain, hf] at h
            rw [h] at hf
            exact hf
          · have hf' : isFatalError r = false := by simpa using hf
            cases r with
            | none =>
                simp only [validationMain, hf', if_false] at h
                exact ih h
            | some x =>
                simp only [validationMain, hf', if_false] at h
                exact ih h

lemma validationMain_nonfatal_cons (nfm : String) (post : List CheckStep) :
    validationMain (CheckStep.ran (some (GoErr.plain nfm)) :: post)
      = ((validationMain post).1 + 500, (validationMain post).2) := by
  simp [validationMain, isFatalError]

/-- The final `BenchResult` fields this core populates. -/
structure BenchResult where
  Score : Int
  Pass : Bool
  LoadLevel : Nat
  Message : String
  Errors : List String
deriving DecidableEq

/-- Message prefixes from `startBenchmark` (the argument of `fmt.Sprint`
before the appended error text). -/
def initFailMsg : String := "/initialize へのリクエストに失敗しました。"

def preTestFailMsg : String := "負荷走行前のバリデーションに失敗しました。"

def validationFailMsg : String := "負荷走行中のバリデーションに失敗しました。"

/-- The gate (`preTest`): checks run once each, in registration order, and
the first error is returned immediately.  The result is the number of
checks actually invoked together with the returned error. -/
def preTest : List (Option String) → Nat × Option String
  | [] => (0, none)
  | some e :: _ => (1, some e)
  | none :: rest => ((preTest rest).1 + 1, (preTest rest).2)

lemma preTest_append_err (pre post : List (Option String)) (e : String)
    (hpre : pre.all Option.isNone = true) :
    preTest (pre ++ some e :: post) = (pre.length + 1, some e) := by
  induction pre with
  | nil => simp [preTest]
  | cons x rest ih =>
      simp only [List.all_cons, Bool.and_eq_true] at hpre
      obtain ⟨hx, hrest⟩ := hpre
      cases x with
      | some y => simp [Option.isNone] at hx
      | none =>
          have hstep : preTest ((none :: rest) ++ some e :: post)
              = ((preTest (rest ++ some e :: post)).1 + 1,
                 (preTest (rest ++ some e :: post)).2) := rfl
          rw [hstep, ih hrest]
          simp

lemma preTest_all_ok (rs : List (Option String))
    (h : rs.all Option.isNone = true) :
    preTest rs = (rs.length, none) := by
  induction rs with
  | nil => simp [preTest]
  | cons x rest ih =>
      simp only [List.all_cons, Bool.and_eq_true] at h
      obtain ⟨hx, hrest⟩ := h
      cases x with
      | some y => simp [Option.isNone] at hx
      | none => simp [preTest, ih hrest]

/-- How the `validationMain` driver loop in `startBenchmark` terminates.
After each `validationMain` return the loop first tests `ctx.Err()`: if the
deadline has fired it breaks (discarding whatever `validationMain` just
returned, recorded here as `lastErr`, which by `validationMain`'s own code
is non-`nil` only for a fatal checker error); otherwise a non-`nil` return
value ends the run as a validation failure.  With a live context and a
`nil` return the loop simply runs another pass, so every exit is one of
these two. -/
inductive ValidationLoopExit where
  | deadline (lastErr : Option GoErr)
  | fatal (e : GoErr)
deriving DecidableEq

/-- The control flow of `startBenchmark` after the registrations, over the
observable outcomes of one run: the `/initialize` request result, the gate
check results (in registration order), the `-test` flag (`preTestOnly`),
the validation loop exit, the final counter snapshot and the accumulated
checker-error strings.  The second component records whether
`go benchmarkMain(ctx, state)` was reached, i.e. whether any load worker
was ever started. -/
def startBenchmark (initErr : Option String) (gate : List (Option String))
    (preTestOnly : Bool) (vExit : ValidationLoopExit) (c : Counters)
    (errs : List String) : BenchResult × Bool :=
  match initErr with
  | some e => (⟨0, false, 0, initFailMsg ++ e, errs⟩, false)
  | none =>
    match (preTest gate).2 with
    | some e => (⟨0, false, 0, preTestFailMsg ++ e, errs⟩, false)
    | none =>
      if preTestOnly then
        (⟨0, false, 0, "preTest passed.", errs⟩, false)
      else
        match vExit with
        | ValidationLoopExit.deadline _ =>
            (⟨score c, true, c.loadLevelUp, "ok", errs⟩, true)
        | ValidationLoopExit.fatal e =>
            (⟨0, false, 0, validationFailMsg ++ errMsg e, errs⟩, true)

/-- Claim C4 as amended: during continuous validation a fatal checker error
is propagated immediately past any number of absorbed steps, only fatal
checker errors are ever propagated, a non-fatal error costs exactly one
500 ms sleep after which the pass continues, and when the driver loop
observes the propagated error with the deadline still unexpired the run
ends with pass=false and score=0 regardless of counters. -/
theorem validation_fatal_and_absorb
    (pre post : List CheckStep) (m nfm : String)
    (gate : List (Option String)) (c : Counters) (errs : List String)
    (hpre : pre.all absorbedStep = true)
    (hgate : (preTest gate).2 = none) :
    (validationMain (pre ++ CheckStep.ran (some (GoErr.checker true m)) :: post)).2
        = some (GoErr.checker true m)
    ∧ (∀ (steps : List CheckStep) (e : GoErr),
        (validationMain steps).2 = some e → isFatalError (some e) = true)
    ∧ validationMain (CheckStep.ran (some (GoErr.plain nfm)) :: post)
        = ((validationMain post).1 + 500, (validationMain post).2)
    ∧ (startBenchmark none gate false (ValidationLoopExit.fatal (GoErr.checker true m))
        c errs).1.Pass = false
    ∧ (startBenchmark none gate false (ValidationLoopExit.fatal (GoErr.checker true m))
        c errs).1.Score = 0 := by
  refine ⟨validationMain_append_fatal pre post m hpre,
    validationMain_fatal_of_some, validationMain_nonfatal_cons nfm post, ?_, ?_⟩ <;>
    simp [startBenchmark, hgate]

/-- Witness for C4's amended theorem on a concrete step sequence: one clean
check and one absorbed non-fatal check precede the fatal one, which is
propagated unchanged, and the resulting run fails with score 0. -/
theorem validation_fatal_and_absorb_witness :
    (validationMain ([CheckStep.ran none, CheckStep.ran (some (GoErr.plain "mismatch"))]
        ++ CheckStep.ran (some (GoErr.checker true "fatal boom")) :: [CheckStep.ran none])).2
      = some (GoErr.checker true "fatal boom")
    ∧ (startBenchmark none [none] false
        (ValidationLoopExit.fatal (GoErr.checker true "fatal boom"))
        ⟨7, 1, 2, 3, 4, 5⟩ ["err"]).1.Pass = false
    ∧ (startBenchmark none [none] false
        (ValidationLoopExit.fatal (GoErr.checker true "fatal boom"))
        ⟨7, 1, 2, 3, 4, 5⟩ ["err"]).1.Score = 0 :=
  (fun h => ⟨h.1, h.2.2.2.1, h.2.2.2.2⟩)
    (validation_fatal_and_absorb
      [CheckStep.ran none, CheckStep.ran (some (GoErr.plain "mismatch"))]
      [CheckStep.ran none] "fatal boom" "transient" [none]
      ⟨7, 1, 2, 3, 4, 5⟩ ["err"] (by decide) (by decide))

/-- Counterexample to claim C4 as stated: the driver loop tests `ctx.Err()`
before the error, so a fatal checker error returned at an iteration where
the deadline has already fired is discarded and the run ends with
pass=true and the counter score (10 here), not pass=false and score 0. -/
theorem validation_deadline_overrides_fatal_cex :
    (startBenchmark none [] false
        (ValidationLoopExit.deadline (some (GoErr.checker true "fatal check error")))
        ⟨10, 0, 0, 0, 0, 1⟩ []).1.Pass = true
    ∧ (startBenchmark none [] false
        (ValidationLoopExit.deadline (some (GoErr.checker true "fatal check error")))
        ⟨10, 0, 0, 0, 0, 1⟩ []).1.Score = 10 := by
  refine ⟨by decide, by decide⟩

/-- Claim C5 as amended: pass=true exactly when initialization and the gate
succeeded, the gate-only flag is unset, and the driver loop observed the
expired deadline (even if the last `validationMain` return carried a fatal
error); and whenever pass=false the score is 0. -/
theorem pass_iff_deadline (initErr : Option String) (gate : List (Option String))
    (pOnly : Bool) (vExit : ValidationLoopExit) (c : Counters) (errs : List String) :
    ((startBenchmark initErr gate pOnly vExit c errs).1.Pass = true
      ↔ (initErr = none ∧ (preTest gate).2 = none ∧ pOnly = false
          ∧ ∃ le, vExit = ValidationLoopExit.deadline le))
    ∧ ((startBenchmark initErr gate pOnly vExit c errs).1.Pass = false
        → (startBenchmark initErr gate pOnly vExit c errs).1.Score = 0) := by
  cases initErr with
  | some e => simp [startBenchmark]
  | none =>
      cases hpt : (preTest gate).2 with
      | some e => simp [startBenchmark, hpt]
      | none =>
          cases pOnly with
          | true => simp [startBenchmark, hpt]
          | false =>
              cases vExit with
              | deadline le => simp [startBenchmark, hpt]
              | fatal e => simp [startBenchmark, hpt]

/-- Witness for C5's amended theorem: a clean run that reaches the deadline
passes. -/
theorem pass_iff_deadline_witness :
    (startBenchmark none [none] false (ValidationLoopExit.deadline none)
        ⟨1, 0, 0, 0, 0, 0⟩ []).1.Pass = true :=
  (pass_iff_deadline none [none] false (ValidationLoopExit.deadline none)
      ⟨1, 0, 0, 0, 0, 0⟩ []).1.mpr ⟨rfl, by decide, rfl, ⟨none, rfl⟩⟩

/-- Counterexample to claim C5 as stated: a run whose final validation pass
returned a fatal checker error, but whose deadline had expired by the time
the loop inspected it, still gets pass=true and keeps the counter score
882 — the claim demands pass=false and score 0 for any run with a fatal
validation error. -/
theorem pass_despite_fatal_cex :
    (startBenchmark none [none] false
        (ValidationLoopExit.deadline (some (GoErr.checker true "db corrupted")))
        ⟨1000, 100, 50, 30, 200, 3⟩ ["checker: db corrupted"]).1.Pass = true
    ∧ (startBenchmark none [none] false
        (ValidationLoopExit.deadline (some (GoErr.checker true "db corrupted")))
        ⟨1000, 100, 50, 30, 200, 3⟩ ["checker: db corrupted"]).1.Score = 882 := by
  refine ⟨by decide, by decide⟩

/-- Claim C6: the gate invokes checks once each in registration order,
stopping at and propagating the first error (after an error-free prefix of
length `k` the count of invoked checks is `k+1`; an all-clean gate invokes
all checks); on gate failure the result has score 0, pass=false, a message
citing the gate failure, and `benchmarkMain` — hence any load worker — is
never started. -/
theorem preTest_gate_spec
    (pre post : List (Option String)) (e : String)
    (vExit : ValidationLoopExit) (c : Counters) (errs : List String)
    (hpre : pre.all Option.isNone = true) :
    preTest (pre ++ some e :: post) = (pre.length + 1, some e)
    ∧ (∀ rs : List (Option String), rs.all Option.isNone = true →
        preTest rs = (rs.length, none))
    ∧ (startBenchmark none (pre ++ some e :: post) false vExit c errs).1.Score = 0
    ∧ (startBenchmark none (pre ++ some e :: post) false vExit c errs).1.Pass = false
    ∧ (startBenchmark none (pre ++ some e :: post) false vExit c errs).1.Message
        = preTestFailMsg ++ e
    ∧ (startBenchmark none (pre ++ some e :: post) false vExit c errs).2 = false := by
  have hgate : (preTest (pre ++ some e :: post)).2 = some e := by
    rw [preTest_append_err pre post e hpre]
  refine ⟨preTest_append_err pre post e hpre, preTest_all_ok, ?_, ?_, ?_, ?_⟩ <;>
    simp [startBenchmark, hgate]

/-- Witness for C6: two clean checks precede the failing third one, which
aborts the gate after exactly three invocations; the run fails without
starting any load worker. -/
theorem preTest_gate_spec_witness :
    preTest [none, none, some "gate boom", none] = (3, some "gate boom")
    ∧ (startBenchmark none [none, none, some "gate boom", none] false
        (ValidationLoopExit.deadline none) ⟨0, 0, 0, 0, 0, 0⟩ ["x"]).1.Pass = false
    ∧ (startBenchmark none [none, none, some "gate boom", none] false
        (ValidationLoopExit.deadline none) ⟨0, 0, 0, 0, 0, 0⟩ ["x"]).2 = false :=
  (fun h => ⟨h.1, h.2.2.2.1, h.2.2.2.2.2⟩)
    (preTest_gate_spec [none, none] [none] "gate boom"
      (ValidationLoopExit.deadline none) ⟨0, 0, 0, 0, 0, 0⟩ ["x"] (by decide))

/-- Claim C9: with the gate-only flag set and a successful gate, the run
returns Score=0, Pass=false and Message "preTest passed.", without starting
`benchmarkMain`. -/
theorem preTestOnly_result (gate : List (Option String))
    (vExit : ValidationLoopExit) (c : Counters) (errs : List String)
    (hgate : (preTest gate).2 = none) :
    startBenchmark none gate true vExit c errs
      = (⟨0, false, 0, "preTest passed.", errs⟩, false) := by
  simp [startBenchmark, hgate]

/-- Witness for C9 on a one-check gate with nonzero counters: the counters
are ignored and the gate-only result is returned. -/
theorem preTestOnly_result_witness :
    startBenchmark none [none] true (ValidationLoopExit.deadline none)
        ⟨5, 1, 1, 1, 1, 1⟩ ["e"]
      = (⟨0, false, 0, "preTest passed.", ["e"]⟩, false) :=
  preTestOnly_result [none] (ValidationLoopExit.deadline none)
    ⟨5, 1, 1, 1, 1, 1⟩ ["e"] (by decide)

/-- Claim C10: the score is not clamped at zero — with the non-negative
snapshot `get=0, fetch=0, post=0, msg=0, s304=100` a deadline-reached run
ends with Pass=true and the strictly negative Score `-99`. -/
theorem negative_score_pass :
    (startBenchmark none [none] false (ValidationLoopExit.deadline none)
        ⟨0, 0, 0, 0, 100, 0⟩ ["static"]).1.Pass = true
    ∧ (startBenchmark none [none] false (ValidationLoopExit.deadline none)
        ⟨0, 0, 0, 0, 100, 0⟩ ["static"]).1.Score = -99
    ∧ (startBenchmark none [none] false (ValidationLoopExit.deadline none)
        ⟨0, 0, 0, 0, 100, 0⟩ ["static"]).1.Score < 0 := by
  refine ⟨by decide, by decide, by decide⟩

end IsuconBench
